import Mathlib

/-!
Shallow embedding of the Even Realities G1 BLE controller
(`src/contoller/glasses2.ts` and its duplicated variant in `src/unnamed/part_002`,
called the "v2" variant below).

Modelling conventions:
* JS `Uint8Array` values are `List Nat` whose entries are byte values; writes into a
  `Uint8Array` mask with `% 256`, mirrored explicitly where a stored value can exceed 255.
* JS strings are `List Char` (a JS string is a sequence of code units; none of the
  verified properties depend on the UTF-16 vs code-point distinction).
* A characteristic write (`writeToCharacteristic`) is recorded as a `TransportWrite`;
  operations return their result together with the ordered list of writes they perform.
* `async` methods returning `Promise<void>` are modelled as `Except String Unit`
  (a thrown error is `Except.error`, normal resolution is `Except.ok ()`).
* The session object's mutable fields are gathered in `Session`; `leftTx`/`rightTx`
  record whether `leftTxCharacteristic`/`rightTxCharacteristic` are non-null.
-/

inductive Endpoint
  | left
  | right
deriving DecidableEq, Repr

structure TransportWrite where
  endpoint : Endpoint
  data : List Nat
deriving DecidableEq, Repr

/-- Mutable state of `EvenRealitiesG1Manager` (both variants declare the same fields). -/
structure Session where
  isConnected : Bool
  leftTx : Bool
  rightTx : Bool
  sequenceNumber : Nat
  heartbeatSequence : Nat
  isInCase : Bool
  isCaseOpen : Bool
  isGlassesWorn : Bool
  isGlassesInBox : Bool
  isGlassesCharging : Bool
  isInSilentMode : Bool
deriving DecidableEq, Repr

/-- A session that has never connected (or has been `disconnect()`ed):
`isConnected` is false and both TX characteristics are null. -/
def disconnectedSession : Session :=
  { isConnected := false, leftTx := false, rightTx := false,
    sequenceNumber := 0, heartbeatSequence := 0,
    isInCase := false, isCaseOpen := false, isGlassesWorn := false,
    isGlassesInBox := false, isGlassesCharging := false, isInSilentMode := false }

/-- A session right after a successful `connectToGlasses`. -/
def connectedSession : Session :=
  { isConnected := true, leftTx := true, rightTx := true,
    sequenceNumber := 0, heartbeatSequence := 0,
    isInCase := false, isCaseOpen := false, isGlassesWorn := false,
    isGlassesInBox := false, isGlassesCharging := false, isInSilentMode := false }

/-! Command constants (the `COMMANDS` object). -/

def CMD_SET_BRIGHTNESS : Nat := 0x01
def CMD_SET_SILENT_MODE : Nat := 0x03
def CMD_MICROPHONE_CONTROL : Nat := 0x0E
def CMD_SEND_BITMAP : Nat := 0x15
def CMD_CRC_CHECK : Nat := 0x16
def CMD_CLEAR_SCREEN : Nat := 0x18
def CMD_SEND_HEARTBEAT : Nat := 0x25
def CMD_GET_BATTERY : Nat := 0x2C
def CMD_SEND_NOTIFICATION : Nat := 0x4B
def CMD_CLEAR_NOTIFICATION : Nat := 0x4C
def CMD_INIT : Nat := 0x4D
def CMD_SEND_TEXT : Nat := 0x4E
def CMD_DEVICE_EVENTS : Nat := 0xF5
def BMP_TRANSMISSION_END : List Nat := [0x20, 0x0d, 0x0e]

/-- Screen status flags (`SCREEN_STATUS` in `contoller/glasses`). -/
def SCREEN_STATUS_NEW_CONTENT : Nat := 0x01
def SCREEN_STATUS_TEXT_SHOW : Nat := 0x70

/-- `sendCommand(data, toLeft, toRight)`: pushes a `writeToCharacteristic` for each
requested endpoint whose TX characteristic is non-null. -/
def sendCommand (s : Session) (data : List Nat) (toLeft toRight : Bool) : List TransportWrite :=
  (if toLeft && s.leftTx then [⟨Endpoint.left, data⟩] else []) ++
  (if toRight && s.rightTx then [⟨Endpoint.right, data⟩] else [])

/-- `setBrightness(brightness, autoMode)`: clamps to 0..42, sends to the right arm only.
No connected-state guard in the source. -/
def setBrightness (s : Session) (brightness : Int) (autoMode : Bool) :
    Except String Unit × List TransportWrite :=
  let command : List Nat :=
    [CMD_SET_BRIGHTNESS, (max 0 (min 42 brightness)).toNat % 256, if autoMode then 0x01 else 0x00]
  (Except.ok (), sendCommand s command false true)

/-- `setSilentMode(enabled)`: sends to both arms. No connected-state guard in the source. -/
def setSilentMode (s : Session) (enabled : Bool) : Except String Unit × List TransportWrite :=
  let command : List Nat := [CMD_SET_SILENT_MODE, if enabled then 0x0C else 0x0A]
  (Except.ok (), sendCommand s command true true)

/-- `clearScreen()`: single-byte CLEAR_SCREEN command to both arms.
No connected-state guard in the source. -/
def clearScreen (s : Session) : Except String Unit × List TransportWrite :=
  let command : List Nat := [CMD_CLEAR_SCREEN]
  (Except.ok (), sendCommand s command true true)

/-- `getBatteryStatus()`: battery query to both arms. No connected-state guard in the source. -/
def getBatteryStatus (s : Session) : Except String Unit × List TransportWrite :=
  let command : List Nat := [CMD_GET_BATTERY, 0x01]
  (Except.ok (), sendCommand s command true true)

/-! ## Text pagination (`splitTextIntoLines`, `splitIntoScreens`, `createTextPackets`) -/

/-- JS `text.split(' ')`: split on every single space; `"".split(' ')` is `[""]`. -/
def splitOnSpace : List Char → List (List Char)
  | [] => [[]]
  | c :: rest =>
    if c = ' ' then [] :: splitOnSpace rest
    else
      match splitOnSpace rest with
      | [] => [[c]]
      | w :: ws => (c :: w) :: ws

/-- The word loop of `splitTextIntoLines`.  The source guard is
`testLine.length * (21 * 0.6) <= 488`; in IEEE-754 doubles `21 * 0.6` is
`12.599999999999999644…`, and for every natural length `n` the comparison
`n * (21 * 0.6) <= 488` agrees with the exact rational test `n * 12.6 ≤ 488`,
i.e. `n * 126 ≤ 4880` (the boundary cases are `38 * 12.6 = 478.8` and
`39 * 12.6 = 491.4`, both far from 488 relative to the rounding error). -/
def splitLinesLoop : List (List Char) → List Char → List (List Char) → List (List Char)
  | [], currentLine, lines =>
    if currentLine.isEmpty then lines else lines ++ [currentLine]
  | word :: rest, currentLine, lines =>
    let testLine := if currentLine.isEmpty then word else currentLine ++ ' ' :: word
    if testLine.length * 126 ≤ 4880 then
      splitLinesLoop rest testLine lines
    else
      if !currentLine.isEmpty then
        splitLinesLoop rest word (lines ++ [currentLine])
      else
        splitLinesLoop rest currentLine (lines ++ [word])

/-- `splitTextIntoLines(text)`: greedy word wrap. -/
def splitTextIntoLines (text : List Char) : List (List Char) :=
  splitLinesLoop (splitOnSpace text) [] []

/-- The loop of `splitIntoScreens`: `for (i = 0; i < lines.length; i += 5)
screens.push(lines.slice(i, i + 5))`.  The first argument is fuel (structural
recursion only; `splitIntoScreens` passes enough fuel for the whole list). -/
def splitIntoScreensLoop {α : Type} (lines : List α) : Nat → Nat → List (List α)
  | 0, _ => []
  | fuel + 1, i =>
    if i < lines.length then
      ((lines.drop i).take 5) :: splitIntoScreensLoop lines fuel (i + 5)
    else []

/-- `splitIntoScreens(lines)`: groups of 5 lines, last group possibly shorter. -/
def splitIntoScreens {α : Type} (lines : List α) : List (List α) :=
  splitIntoScreensLoop lines lines.length 0

/-- UTF-8 bytes of a JS string (`new TextEncoder().encode(...)`). -/
def utf8Bytes (l : List Char) : List Nat :=
  (String.mk l).toUTF8.toList.map (fun b => b.toNat)

/-- The loop of `createTextPackets`: chunks of `194 - 10 = 184` bytes.
First argument of the inner loop is fuel. -/
def createTextPacketsLoop (textBytes : List Nat) : Nat → Nat → List (List Nat)
  | 0, _ => []
  | fuel + 1, i =>
    if i < textBytes.length then
      ((textBytes.drop i).take 184) :: createTextPacketsLoop textBytes fuel (i + 184)
    else []

/-- `createTextPackets(lines)`: UTF-8 encode `lines.join('\n')` and chunk it. -/
def createTextPackets (lines : List (List Char)) : List (List Nat) :=
  let textBytes := utf8Bytes (List.intercalate ['\n'] lines)
  createTextPacketsLoop textBytes textBytes.length 0

/-- `createTextPacket(data, currentPacket, totalPackets, currentPage, maxPages)`:
allocates `this.sequenceNumber++` and builds the 9-byte SEND_TEXT header followed
by the payload.  Every header byte is stored through a `Uint8Array`, hence `% 256`. -/
def createTextPacket (s : Session) (data : List Nat)
    (currentPacket totalPackets currentPage maxPages : Nat) : List Nat × Session :=
  let sequence := s.sequenceNumber
  let s' := { s with sequenceNumber := s.sequenceNumber + 1 }
  let newScreen := SCREEN_STATUS_NEW_CONTENT ||| SCREEN_STATUS_TEXT_SHOW
  let header : List Nat :=
    [CMD_SEND_TEXT, sequence % 256, totalPackets % 256, currentPacket % 256,
     newScreen % 256, 0, 0, currentPage % 256, maxPages % 256]
  (header ++ data, s')

/-- Inner packet loop of `sendText` (glasses2.ts variant).  The position bytes come
from JS double arithmetic that happens to be exact for natural inputs:
`Math.min(x, 488 - 21*0.6)` truncates to `min x 475`, and
`y + screenIndex*5*(21*1.2)` evaluates to exactly `y + 126*screenIndex`
(the double `5*(21*1.2)` is exactly `126`). -/
def sendTextPacketLoop (s : Session) (ps : List (List Nat))
    (packetIndex total screenIndex nScreens x y : Nat) (replace : Bool) :
    List TransportWrite × Session :=
  match ps with
  | [] => ([], s)
  | data :: rest =>
    let pr := createTextPacket s data packetIndex total screenIndex nScreens
    let screenStatus :=
      if replace then SCREEN_STATUS_TEXT_SHOW
      else SCREEN_STATUS_NEW_CONTENT ||| SCREEN_STATUS_TEXT_SHOW
    let adjustedX := min x 475
    let screenY := y + 126 * screenIndex
    let packet :=
      ((((pr.1.set 4 (screenStatus % 256)).set 5 (adjustedX % 256)).set 6
        (adjustedX / 256 % 256)).set 7 (screenY % 256)).set 8 (screenY / 256 % 256)
    let ws := sendCommand pr.2 packet true true
    let r := sendTextPacketLoop pr.2 rest (packetIndex + 1) total screenIndex nScreens x y replace
    (ws ++ r.1, r.2)

/-- Outer screen loop of `sendText` (glasses2.ts variant). -/
def sendTextScreensLoop (s : Session) (screens : List (List (List Char)))
    (screenIndex nScreens x y : Nat) (replace : Bool) : List TransportWrite × Session :=
  match screens with
  | [] => ([], s)
  | scr :: rest =>
    let packets := createTextPackets scr
    let r1 := sendTextPacketLoop s packets 0 packets.length screenIndex nScreens x y replace
    let r2 := sendTextScreensLoop r1.2 rest (screenIndex + 1) nScreens x y replace
    (r1.1 ++ r2.1, r2.2)

/-- `sendText(text, x, y, replace)` (glasses2.ts variant): returns `false`
immediately when not connected, otherwise paginates and writes every packet
to both endpoints. -/
def sendText (s : Session) (text : List Char) (x y : Nat) (replace : Bool) :
    Bool × List TransportWrite × Session :=
  if !s.isConnected then (false, [], s)
  else
    let lines := splitTextIntoLines text
    let screens := splitIntoScreens lines
    let r := sendTextScreensLoop s screens 0 screens.length x y replace
    (true, r.1, r.2)

/-! ## CRC engine (`calculateCRC32`, both variants) -/

/-- One shift step of the CRC inner loop:
`if (crc & 0x80000000) crc = (crc << 1) ^ 0x04C11DB7 else crc <<= 1`,
on the 32-bit register (JS int32 wrap-around modelled by `% 2^32`). -/
def crcShiftStep (crc : Nat) : Nat :=
  if crc.testBit 31 then ((crc * 2) % 2 ^ 32) ^^^ 0x04C11DB7
  else (crc * 2) % 2 ^ 32

/-- The inner `for (j = 0; j < 8; j++)` loop. -/
def crcBits : Nat → Nat → Nat
  | 0, crc => crc
  | j + 1, crc => crcBits j (crcShiftStep crc)

/-- One data byte: `crc ^= data[i] << 24` followed by 8 shift steps.
`Uint8Array` entries are below 256; the `% 256` makes the model total. -/
def crcUpdateByte (crc b : Nat) : Nat :=
  crcBits 8 (crc ^^^ (b % 256) * 2 ^ 24)

/-- `calculateCRC32(data)` of the v2 variant (`src/unnamed/part_002`):
register starts at `0xFFFFFFFF`, bytewise MSB-first update, returns
`(~crc) >>> 0`, i.e. the complement within 32 bits. -/
def calculateCRC32 (data : List Nat) : Nat :=
  0xFFFFFFFF ^^^ data.foldl crcUpdateByte 0xFFFFFFFF

/-- The fixed BMP storage address `0x00 0x1C 0x00 0x00`. -/
def storageAddress : List Nat := [0x00, 0x1C, 0x00, 0x00]

/-- `calculateCRC32(data)` of the glasses2.ts variant: additionally feeds the
4-byte storage address through the register before the data, and byte-swaps the
complemented register with
`(result << 24) | ((result & 0xFF00) << 8) | ((result & 0xFF0000) >> 8) | (result >>> 24)`
(the JS int32 result has the same 32-bit pattern as the value computed here). -/
def calculateCRC32G2 (data : List Nat) : Nat :=
  let crc0 := storageAddress.foldl crcUpdateByte 0xFFFFFFFF
  let crc := data.foldl crcUpdateByte crc0
  let result := 0xFFFFFFFF ^^^ crc
  ((result * 2 ^ 24) % 2 ^ 32) ||| ((result &&& 0xFF00) * 2 ^ 8) |||
    ((result &&& 0xFF0000) / 2 ^ 8) ||| (result / 2 ^ 24)

/-- `uint32ToBytes(value)`: big-endian bytes of a 32-bit value. -/
def uint32ToBytes (value : Nat) : List Nat :=
  [value / 2 ^ 24 % 256, value / 2 ^ 16 % 256, value / 2 ^ 8 % 256, value % 256]

/-- Big-endian byte swap of a 32-bit value (used to state what the glasses2
variant does to the complemented register). -/
def byteSwap32 (n : Nat) : Nat :=
  ((n * 2 ^ 24) % 2 ^ 32) ||| ((n &&& 0xFF00) * 2 ^ 8) ||| ((n &&& 0xFF0000) / 2 ^ 8) ||| (n / 2 ^ 24)

/-- Modelled from the claim text (the reference description of the CRC-32
variant): register initialized to `0xFFFFFFFF`; for each input byte, the byte is
XORed into register bits 31..24, followed by 8 MSB-first steps that shift left
(within 32 bits) and XOR the polynomial `0x04C11DB7` when bit 31 was set; the
returned value is the one's complement of the final register masked to 32 bits.
Stated independently of the source translation above for comparison. -/
def crcSpecStep (r : Nat) : Nat :=
  if r / 2 ^ 31 % 2 = 1 then ((2 * r) % 2 ^ 32) ^^^ 0x04C11DB7 else (2 * r) % 2 ^ 32

/-- Reference CRC-32 per the claim text (see `crcSpecStep`). -/
def crcReferenceSpec (data : List Nat) : Nat :=
  (data.foldl (fun r b => crcSpecStep^[8] (r ^^^ (b % 256) * 2 ^ 24)) 0xFFFFFFFF) ^^^ 0xFFFFFFFF

/-! ## BMP image transfer -/

/-- BMP image descriptor (`BMPImageData` in `contoller/glasses`). -/
structure BMPImageData where
  width : Nat
  height : Nat
  data : List Nat
deriving DecidableEq, Repr

/-- The loop of `createBMPPackets` (glasses2.ts variant, `chunkSize = 194 - 2 = 192`):
packet bytes are `[SEND_BITMAP, floor(i/192) & 0xFF]`, the first packet additionally
carries the 4-byte storage address, then the chunk.  First argument is fuel. -/
def createBMPPacketsLoop (imageData : List Nat) : Nat → Nat → List (List Nat)
  | 0, _ => []
  | fuel + 1, i =>
    if i < imageData.length then
      ([CMD_SEND_BITMAP, i / 192 % 256] ++
        (if i = 0 then [0x00, 0x1c, 0x00, 0x00] else []) ++ (imageData.drop i).take 192)
        :: createBMPPacketsLoop imageData fuel (i + 192)
    else []

/-- `createBMPPackets(imageData)` (glasses2.ts variant). -/
def createBMPPackets (imageData : List Nat) : List (List Nat) :=
  createBMPPacketsLoop imageData imageData.length 0

/-- The loop of `createBMPPackets` (v2 variant, chunk size 193):
`packetIndex = floor(i/193)`; first packet gets the storage address. -/
def createBMPPacketsV2Loop (imageData : List Nat) : Nat → Nat → List (List Nat)
  | 0, _ => []
  | fuel + 1, i =>
    if i < imageData.length then
      ([CMD_SEND_BITMAP, i / 193 % 256] ++
        (if i / 193 = 0 then [0x00, 0x1c, 0x00, 0x00] else []) ++ (imageData.drop i).take 193)
        :: createBMPPacketsV2Loop imageData fuel (i + 193)
    else []

/-- `createBMPPackets(imageData)` (v2 variant). -/
def createBMPPacketsV2 (imageData : List Nat) : List (List Nat) :=
  createBMPPacketsV2Loop imageData imageData.length 0

/-- `convertTo1BitBMP(data)` (glasses2.ts variant): allocates
`bytesPerRow * height = ceil(576/8) * 136` zero bytes and "copies" rows into it —
but `Uint8Array.prototype.slice` returns a copy, so the writes land in discarded
temporaries and the returned buffer stays zero-filled. -/
def convertTo1BitBMP (data : List Nat) : List Nat :=
  let _imageData := data.drop 54
  List.replicate ((576 + 7) / 8 * 136) 0

/-- `sendBMPImage(imageData)` (glasses2.ts variant): guard on connection, then a
dimension pre-check requiring exactly 576×136; afterwards packets are written
left-then-right, the 3-byte transmission end marker is written to both endpoints,
and the CRC frame (computed over the storage address prepended to the converted
bitmap — note `calculateCRC32G2` prepends the address internally a second time)
is written to both endpoints. -/
def sendBMPImage (s : Session) (imageData : BMPImageData) : Bool × List TransportWrite :=
  if !s.isConnected then (false, [])
  else if imageData.width ≠ 576 ∨ imageData.height ≠ 136 then (false, [])
  else
    let bmpData := convertTo1BitBMP imageData.data
    let packets := createBMPPackets imageData.data
    let packetWrites :=
      packets.foldl (fun acc p => acc ++ sendCommand s p true false ++ sendCommand s p false true) []
    let endCommand : List Nat := [0x20, 0x0d, 0x0e]
    let endWrites := sendCommand s endCommand true false ++ sendCommand s endCommand false true
    let crc := calculateCRC32G2 ([0x00, 0x1c, 0x00, 0x00] ++ bmpData)
    let crcCommand := CMD_CRC_CHECK :: uint32ToBytes crc
    let crcWrites := sendCommand s crcCommand true false ++ sendCommand s crcCommand false true
    (true, packetWrites ++ endWrites ++ crcWrites)

/-- `sendBMPImage(imageData)` (v2 variant): guard on connection, then the width
pre-check `width > 488`; the end command is built as
`new Uint8Array(1); endCommand[0] = BMP_TRANSMISSION_END[0]` — a single byte —
and the CRC is computed over the raw image data. -/
def sendBMPImageV2 (s : Session) (imageData : BMPImageData) : Bool × List TransportWrite :=
  if !s.isConnected then (false, [])
  else if 488 < imageData.width then (false, [])
  else
    let packets := createBMPPacketsV2 imageData.data
    let packetWrites :=
      packets.foldl (fun acc p => acc ++ sendCommand s p true false ++ sendCommand s p false true) []
    let endCommand : List Nat := [BMP_TRANSMISSION_END.getD 0 0]
    let endWrites := sendCommand s endCommand true false ++ sendCommand s endCommand false true
    let crc := calculateCRC32 imageData.data
    let crcCommand := CMD_CRC_CHECK :: uint32ToBytes crc
    let crcWrites := sendCommand s crcCommand true false ++ sendCommand s crcCommand false true
    (true, packetWrites ++ endWrites ++ crcWrites)

/-! ## Notifications (`sendNotification`) -/

/-- `NotificationData` (field order as in the interface; `subtitle` optional). -/
structure NotificationData where
  msg_id : Nat
  action : Nat
  app_identifier : List Char
  title : List Char
  subtitle : Option (List Char)
  message : List Char
  time_s : Nat
  date : List Char
  display_name : List Char
deriving DecidableEq, Repr

/-- JSON string escaping as performed by `JSON.stringify` (quote, backslash and
control characters; everything else is passed through). -/
def jsonEscapeChar (c : Char) : List Char :=
  if c = '"' then ['\\', '"']
  else if c = '\\' then ['\\', '\\']
  else if c = Char.ofNat 8 then ['\\', 'b']
  else if c = Char.ofNat 9 then ['\\', 't']
  else if c = Char.ofNat 10 then ['\\', 'n']
  else if c = Char.ofNat 12 then ['\\', 'f']
  else if c = Char.ofNat 13 then ['\\', 'r']
  else if c.toNat < 32 then
    ['\\', 'u', '0', '0', Nat.digitChar (c.toNat / 16), Nat.digitChar (c.toNat % 16)]
  else [c]

/-- A JSON string literal. -/
def jsonQuote (s : List Char) : List Char :=
  '"' :: (s.flatMap jsonEscapeChar) ++ ['"']

/-- Decimal digits of a natural number. -/
def natChars (n : Nat) : List Char := (Nat.repr n).toList

/-- One `"key":value` member. -/
def jsonMember (k : String) (v : List Char) : List Char :=
  jsonQuote k.toList ++ [':'] ++ v

/-- `JSON.stringify` of the inner notification object, members in interface
order, `subtitle` omitted when undefined. -/
def notificationInnerJson (n : NotificationData) : List Char :=
  [Char.ofNat 123] ++
    List.intercalate [','] (
      [jsonMember "msg_id" (natChars n.msg_id),
       jsonMember "action" (natChars n.action),
       jsonMember "app_identifier" (jsonQuote n.app_identifier),
       jsonMember "title" (jsonQuote n.title)] ++
      (match n.subtitle with
       | none => []
       | some st => [jsonMember "subtitle" (jsonQuote st)]) ++
      [jsonMember "message" (jsonQuote n.message),
       jsonMember "time_s" (natChars n.time_s),
       jsonMember "date" (jsonQuote n.date),
       jsonMember "display_name" (jsonQuote n.display_name)]) ++
  [Char.ofNat 125]

/-- `JSON.stringify({ncs_notification: notification})`. -/
def notificationJson (n : NotificationData) : List Char :=
  [Char.ofNat 123] ++ jsonMember "ncs_notification" (notificationInnerJson n) ++ [Char.ofNat 125]

/-- `sendNotification(notification)`: throws when the JSON payload exceeds 180
bytes, otherwise prefixes the 4-byte header and writes to the left arm only.
No connected-state guard in the source. -/
def sendNotification (s : Session) (n : NotificationData) :
    Except String Unit × List TransportWrite :=
  let jsonBytes := utf8Bytes (notificationJson n)
  if 180 < jsonBytes.length then (Except.error ("Notification payload too large"), [])
  else
    (Except.ok (),
      sendCommand s ([CMD_SEND_NOTIFICATION, 0x00, 0x01, 0x00] ++ jsonBytes) true false)

/-! ## Inbound notifications: battery and device events -/

/-- Decoded battery reading. -/
structure BatteryInfo where
  percentage : Nat
  isCharging : Bool
  voltage : Option Nat
deriving DecidableEq, Repr

/-- `handleBatteryUpdate(bytes, isLeft)`: drops payloads shorter than 4 bytes;
otherwise `percentage = bytes[3]`, `isCharging = (bytes[2] & 0x01) !== 0`, and
`voltage = bytes.length > 4 ? (bytes[4] << 8 | bytes[5]) : undefined` — when
`bytes[5]` is out of range JS reads `undefined`, which the bitwise `|` coerces
to 0, modelled by `getD _ 0`.  The decoded info is delivered to the battery
callbacks together with the `isLeft` endpoint tag. -/
def handleBatteryUpdate (bytes : List Nat) (isLeft : Bool) : Option (BatteryInfo × Bool) :=
  if bytes.length < 4 then none
  else some
    ({ percentage := bytes.getD 3 0,
       isCharging := (bytes.getD 2 0) &&& 0x01 != 0,
       voltage := if 4 < bytes.length then some ((bytes.getD 4 0) * 2 ^ 8 ||| bytes.getD 5 0)
                  else none }, isLeft)

/-- `mapTypeToCommand(type)`: maps a device-event sub-code to its label, updating
session state as a side effect; sub-codes `0x17`/`0x18` additionally fire
`this.clearScreen()`, whose transport writes are returned here. -/
def mapTypeToCommand (s : Session) (type : Nat) : String × Session × List TransportWrite :=
  if type = 0x00 then ("TouchPad Double Tap", s, [])
  else if type = 0x01 then ("TouchPad Single Tap", s, [])
  else if type = 0x02 then ("Head Up", s, [])
  else if type = 0x03 then ("Head Down", s, [])
  else if type = 0x04 then
    ("TouchPad Triple Tap", { s with isGlassesWorn := true, isInSilentMode := true }, [])
  else if type = 0x05 then
    ("TouchPad Triple Tap", { s with isGlassesWorn := true, isInSilentMode := false }, [])
  else if type = 0x06 then ("Glasses are worn", { s with isGlassesWorn := true }, [])
  else if type = 0x07 then ("Glasses taken off, not in box", { s with isGlassesWorn := false }, [])
  else if type = 0x08 then
    ("Put in case, lid open", { s with isInCase := true, isCaseOpen := true }, [])
  else if type = 0x09 then ("Charging Status Change", { s with isGlassesCharging := true }, [])
  else if type = 0x0B then
    ("Put in case, lid closed", { s with isInCase := true, isCaseOpen := false }, [])
  else if type = 0x0E then
    ("Case Charging Status Change", { s with isGlassesCharging := false }, [])
  else if type = 0x0F then ("Case Battery Percent", { s with isGlassesCharging := false }, [])
  else if type = 0x11 then ("BLE Paired Success", { s with isGlassesWorn := true }, [])
  else if type = 0x12 then
    ("Right TouchPad pressed, held and released", { s with isGlassesWorn := true }, [])
  else if type = 0x17 then
    let s' := { s with isGlassesWorn := true }
    ("Left TouchPad pressed and held", s', (clearScreen s').2)
  else if type = 0x18 then
    let s' := { s with isGlassesWorn := true }
    ("Left TouchPad pressed Released", s', (clearScreen s').2)
  else if type = 0x1E then ("Open Dashboard (double tap)", { s with isGlassesWorn := true }, [])
  else if type = 0x1F then ("Close Dashboard (double tap)", s, [])
  else if type = 0x20 then ("Double tap (translate/transcribe mode)", s, [])
  else ("Unknown event", s, [])

/-- `handleDeviceEvent(bytes)`: payloads shorter than 2 bytes are dropped;
otherwise the sub-code `bytes[1]` is mapped through `mapTypeToCommand` (whose
state update and outbound writes are the observable effect here) and the event
is forwarded to the device-event callbacks. -/
def handleDeviceEvent (s : Session) (bytes : List Nat) : Session × List TransportWrite :=
  if bytes.length < 2 then (s, [])
  else
    let r := mapTypeToCommand s (bytes.getD 1 0)
    (r.2.1, r.2.2)

/-! ## Sequence-number behaviour of text frames -/

/-- The session after building `k` text frames back-to-back (the header fields
other than the sequence counter do not influence the counter). -/
def iterTextSession : Session → Nat → Session
  | s, 0 => s
  | s, k + 1 => iterTextSession (createTextPacket s [] 0 1 0 1).2 k

/-- The sequence byte carried by the `(k+1)`-th text frame built back-to-back
from session `s` (header byte 1). -/
def textSeqByte (s : Session) (k : Nat) : Nat :=
  ((createTextPacket (iterTextSession s k) [] 0 1 0 1).1).getD 1 0

/-! ## Helper lemmas -/

theorem sendCommand_no_characteristics (s : Session) (hL : s.leftTx = false)
    (hR : s.rightTx = false) (d : List Nat) (a b : Bool) : sendCommand s d a b = [] := by
  simp [sendCommand, hL, hR]

/-! ## C1: send operations while not connected -/

/-- C1 (amended): when the session is disconnected (`isConnected = false` and both
TX characteristics null), every listed send operation performs zero transport
writes; `sendText` returns failure (`false`), while `setBrightness`,
`setSilentMode`, `clearScreen`, `getBatteryStatus` resolve successfully
(`Except.ok`) rather than returning failure, and `sendNotification` writes
nothing (it throws only on an oversized payload, independent of connection). -/
theorem disconnected_send_ops_amended (s : Session) (hC : s.isConnected = false)
    (hL : s.leftTx = false) (hR : s.rightTx = false)
    (text : List Char) (x y : Nat) (replace : Bool) (b : Int) (auto enabled : Bool)
    (note : NotificationData) :
    sendText s text x y replace = (false, [], s)
    ∧ setBrightness s b auto = (Except.ok (), [])
    ∧ setSilentMode s enabled = (Except.ok (), [])
    ∧ clearScreen s = (Except.ok (), [])
    ∧ getBatteryStatus s = (Except.ok (), [])
    ∧ (sendNotification s note).2 = [] := by
  have hsc := sendCommand_no_characteristics s hL hR
  refine ⟨?_, ?_, ?_, ?_, ?_, ?_⟩
  · simp [sendText, hC]
  · simp [setBrightness, hsc]
  · simp [setSilentMode, hsc]
  · simp [clearScreen, hsc]
  · simp [getBatteryStatus, hsc]
  · rw [sendNotification]
    split
    · rfl
    · simp [hsc]

/-- C1 witness: the amended statement at a concrete disconnected session. -/
theorem disconnected_send_ops_witness :
    sendText disconnectedSession ['h', 'i'] 0 0 true = (false, [], disconnectedSession)
    ∧ setBrightness disconnectedSession 20 false = (Except.ok (), [])
    ∧ setSilentMode disconnectedSession true = (Except.ok (), [])
    ∧ clearScreen disconnectedSession = (Except.ok (), [])
    ∧ getBatteryStatus disconnectedSession = (Except.ok (), [])
    ∧ (sendNotification disconnectedSession ⟨1, 0, [], [], none, [], 0, [], []⟩).2 = [] :=
  disconnected_send_ops_amended disconnectedSession rfl rfl rfl ['h', 'i'] 0 0 true 20 false
    false ⟨1, 0, [], [], none, [], 0, [], []⟩

/-- C1 counterexample: `setBrightness` invoked on a disconnected session resolves
normally (`Except.ok ()`), it does not return failure. -/
theorem setBrightness_disconnected_not_failure :
    disconnectedSession.isConnected = false
    ∧ (setBrightness disconnectedSession 20 false).1 = Except.ok () :=
  ⟨rfl, rfl⟩

/-! ## C2: image width pre-check -/

/-- C2 (amended): in the v2 variant, `sendBMPImage` rejects exactly the images
with declared width above 488 (immediate failure, zero writes) and does not
reject width ≤ 488; the glasses2.ts variant instead pre-checks for exactly
576×136, so it rejects some widths not exceeding 488 and accepts width 576. -/
theorem sendBMPImage_width_precheck_amended (s : Session) (img : BMPImageData)
    (hc : s.isConnected = true) :
    (488 < img.width → sendBMPImageV2 s img = (false, []))
    ∧ (img.width ≤ 488 → (sendBMPImageV2 s img).1 = true)
    ∧ (¬(img.width = 576 ∧ img.height = 136) → sendBMPImage s img = (false, []))
    ∧ (img.width = 576 → img.height = 136 → (sendBMPImage s img).1 = true) := by
  refine ⟨fun h => ?_, fun h => ?_, fun h => ?_, fun h1 h2 => ?_⟩
  · rw [sendBMPImageV2, hc]
    simp only [Bool.not_true, Bool.false_eq_true, if_false]
    rw [if_pos h]
  · rw [sendBMPImageV2, hc]
    simp only [Bool.not_true, Bool.false_eq_true, if_false]
    rw [if_neg (by omega)]
  · have h' : img.width ≠ 576 ∨ img.height ≠ 136 := by tauto
    rw [sendBMPImage, hc]
    simp only [Bool.not_true, Bool.false_eq_true, if_false]
    rw [if_pos h']
  · rw [sendBMPImage, hc]
    simp only [Bool.not_true, Bool.false_eq_true, if_false]
    rw [if_neg (by simp [h1, h2])]

/-- C2 witness: a 500-pixel-wide image on a connected session is rejected by the
v2 pre-check with zero writes. -/
theorem sendBMPImage_width_precheck_witness :
    sendBMPImageV2 connectedSession ⟨500, 136, [1, 2, 3]⟩ = (false, []) :=
  (sendBMPImage_width_precheck_amended connectedSession ⟨500, 136, [1, 2, 3]⟩ rfl).1 (by decide)

/-- C2 counterexample: in the glasses2.ts variant the pre-check accepts width 576
(which exceeds 488) and rejects width 488 (which does not exceed 488). -/
theorem sendBMPImage_width_precheck_counterexample :
    (sendBMPImage connectedSession ⟨576, 136, []⟩).1 = true
    ∧ (sendBMPImage connectedSession ⟨488, 136, []⟩).1 = false :=
  ⟨rfl, rfl⟩

/-! ## C3: BMP packet chunking -/

theorem createBMPPacketsLoop_length (data : List Nat) :
    ∀ (fuel i : Nat), data.length ≤ i + fuel * 192 →
      (createBMPPacketsLoop data fuel i).length = (data.length - i + 191) / 192 := by
  intro fuel
  induction fuel with
  | zero => intro i h; simp only [createBMPPacketsLoop, List.length_nil]; omega
  | succ n ih =>
    intro i h
    simp only [createBMPPacketsLoop]
    split
    · next hlt => rw [List.length_cons, ih (i + 192) (by omega)]; omega
    · next hlt => simp only [List.length_nil]; omega

theorem createBMPPacketsLoop_tail (data : List Nat) :
    ∀ (fuel i : Nat), 192 ≤ i →
      ∀ p ∈ createBMPPacketsLoop data fuel i,
        ∃ j c, p = [CMD_SEND_BITMAP, j] ++ c ∧ 0 < c.length ∧ c.length ≤ 192
          ∧ c.length + 192 ≤ data.length := by
  intro fuel
  induction fuel with
  | zero => intro i hi p hp; simp [createBMPPacketsLoop] at hp
  | succ n ih =>
    intro i hi p hp
    simp only [createBMPPacketsLoop] at hp
    split at hp
    · next hlt =>
      rcases List.mem_cons.mp hp with rfl | hmem
      · refine ⟨i / 192 % 256, (data.drop i).take 192, ?_, ?_, ?_, ?_⟩
        · rw [if_neg (by omega)]; simp
        · simp only [List.length_take, List.length_drop]; omega
        · simp only [List.length_take, List.length_drop]; omega
        · simp only [List.length_take, List.length_drop]; omega
      · exact ih (i + 192) (by omega) p hmem
    · simp at hp

theorem createBMPPacketsV2Loop_length (data : List Nat) :
    ∀ (fuel i : Nat), data.length ≤ i + fuel * 193 →
      (createBMPPacketsV2Loop data fuel i).length = (data.length - i + 192) / 193 := by
  intro fuel
  induction fuel with
  | zero => intro i h; simp only [createBMPPacketsV2Loop, List.length_nil]; omega
  | succ n ih =>
    intro i h
    simp only [createBMPPacketsV2Loop]
    split
    · next hlt => rw [List.length_cons, ih (i + 193) (by omega)]; omega
    · next hlt => simp only [List.length_nil]; omega

theorem createBMPPacketsV2Loop_tail (data : List Nat) :
    ∀ (fuel i : Nat), 193 ≤ i →
      ∀ p ∈ createBMPPacketsV2Loop data fuel i,
        ∃ j c, p = [CMD_SEND_BITMAP, j] ++ c ∧ 0 < c.length ∧ c.length ≤ 193
          ∧ c.length + 193 ≤ data.length := by
  intro fuel
  induction fuel with
  | zero => intro i hi p hp; simp [createBMPPacketsV2Loop] at hp
  | succ n ih =>
    intro i hi p hp
    simp only [createBMPPacketsV2Loop] at hp
    split at hp
    · next hlt =>
      rcases List.mem_cons.mp hp with rfl | hmem
      · refine ⟨i / 193 % 256, (data.drop i).take 193, ?_, ?_, ?_, ?_⟩
        · rw [if_neg (by omega)]; simp
        · simp only [List.length_take, List.length_drop]; omega
        · simp only [List.length_take, List.length_drop]; omega
        · simp only [List.length_take, List.length_drop]; omega
      · exact ih (i + 193) (by omega) p hmem
    · simp at hp

theorem createBMPPackets_head (data : List Nat) (hne : data ≠ []) :
    ∃ rest, createBMPPackets data
        = ([CMD_SEND_BITMAP, 0, 0x00, 0x1c, 0x00, 0x00] ++ data.take 192) :: rest
      ∧ ∀ p ∈ rest, p ∈ createBMPPacketsLoop data (data.length - 1) 192 := by
  have hpos : 0 < data.length := List.length_pos.mpr hne
  obtain ⟨m, hm⟩ : ∃ m, data.length = m + 1 := ⟨data.length - 1, by omega⟩
  refine ⟨createBMPPacketsLoop data m 192, ?_, ?_⟩
  · rw [createBMPPackets, hm]
    simp only [createBMPPacketsLoop]
    rw [if_pos (by omega)]
    norm_num
  · intro p hp
    have : data.length - 1 = m := by omega
    rw [this]
    simpa using hp

theorem createBMPPacketsV2_head (data : List Nat) (hne : data ≠ []) :
    ∃ rest, createBMPPacketsV2 data
        = ([CMD_SEND_BITMAP, 0, 0x00, 0x1c, 0x00, 0x00] ++ data.take 193) :: rest
      ∧ ∀ p ∈ rest, p ∈ createBMPPacketsV2Loop data (data.length - 1) 193 := by
  have hpos : 0 < data.length := List.length_pos.mpr hne
  obtain ⟨m, hm⟩ : ∃ m, data.length = m + 1 := ⟨data.length - 1, by omega⟩
  refine ⟨createBMPPacketsV2Loop data m 193, ?_, ?_⟩
  · rw [createBMPPacketsV2, hm]
    simp only [createBMPPacketsV2Loop]
    rw [if_pos (by omega)]
    norm_num
  · intro p hp
    have : data.length - 1 = m := by omega
    rw [this]
    simpa using hp

/-- C3 (amended): for every non-empty image byte array, the glasses2.ts variant
chunks into `ceil(len/192)` packets (chunk size `194 - 2 = 192`), while the v2
variant uses 193-byte chunks and yields `ceil(len/193)` packets.  In both
variants every packet is the 2-byte `[opcode, index]` header plus at most one
chunk-size of payload, packet 0 additionally carries the 4-byte storage-address
prefix `0x00 0x1C 0x00 0x00` right after the header, and packet 0 is exactly 4
bytes longer than every other packet built from a full-size chunk. -/
theorem createBMPPackets_chunking_amended (data : List Nat) (hne : data ≠ []) :
    ((createBMPPackets data).length = (data.length + 191) / 192
      ∧ ∃ rest, createBMPPackets data
            = ([CMD_SEND_BITMAP, 0, 0x00, 0x1c, 0x00, 0x00] ++ data.take 192) :: rest
          ∧ (∀ p ∈ rest, ∃ j c, p = [CMD_SEND_BITMAP, j] ++ c ∧ 0 < c.length ∧ c.length ≤ 192)
          ∧ (∀ p ∈ rest, p.length = 194 →
              ([CMD_SEND_BITMAP, 0, 0x00, 0x1c, 0x00, 0x00] ++ data.take 192).length
                = p.length + 4))
    ∧ ((createBMPPacketsV2 data).length = (data.length + 192) / 193
      ∧ ∃ rest, createBMPPacketsV2 data
            = ([CMD_SEND_BITMAP, 0, 0x00, 0x1c, 0x00, 0x00] ++ data.take 193) :: rest
          ∧ (∀ p ∈ rest, ∃ j c, p = [CMD_SEND_BITMAP, j] ++ c ∧ 0 < c.length ∧ c.length ≤ 193)
          ∧ (∀ p ∈ rest, p.length = 195 →
              ([CMD_SEND_BITMAP, 0, 0x00, 0x1c, 0x00, 0x00] ++ data.take 193).length
                = p.length + 4)) := by
  constructor
  · constructor
    · have := createBMPPacketsLoop_length data data.length 0 (by omega)
      rw [createBMPPackets, this]; omega
    · obtain ⟨rest, hrest, hmem⟩ := createBMPPackets_head data hne
      refine ⟨rest, hrest, fun p hp => ?_, fun p hp hplen => ?_⟩
      · obtain ⟨j, c, hpe, hc0, hc1, _⟩ :=
          createBMPPacketsLoop_tail data (data.length - 1) 192 le_rfl p (hmem p hp)
        exact ⟨j, c, hpe, hc0, hc1⟩
      · obtain ⟨j, c, hpe, hc0, hc1, hc2⟩ :=
          createBMPPacketsLoop_tail data (data.length - 1) 192 le_rfl p (hmem p hp)
        have hclen : c.length = 192 := by
          have := congrArg List.length hpe
          simp only [List.length_append, List.length_cons, List.length_nil] at this
          omega
        have hdlen : 384 ≤ data.length := by omega
        simp only [List.length_append, List.length_cons, List.length_nil, List.length_take]
        omega
  · constructor
    · have := createBMPPacketsV2Loop_length data data.length 0 (by omega)
      rw [createBMPPacketsV2, this]; omega
    · obtain ⟨rest, hrest, hmem⟩ := createBMPPacketsV2_head data hne
      refine ⟨rest, hrest, fun p hp => ?_, fun p hp hplen => ?_⟩
      · obtain ⟨j, c, hpe, hc0, hc1, _⟩ :=
          createBMPPacketsV2Loop_tail data (data.length - 1) 193 le_rfl p (hmem p hp)
        exact ⟨j, c, hpe, hc0, hc1⟩
      · obtain ⟨j, c, hpe, hc0, hc1, hc2⟩ :=
          createBMPPacketsV2Loop_tail data (data.length - 1) 193 le_rfl p (hmem p hp)
        have hclen : c.length = 193 := by
          have := congrArg List.length hpe
          simp only [List.length_append, List.length_cons, List.length_nil] at this
          omega
        have hdlen : 386 ≤ data.length := by omega
        simp only [List.length_append, List.length_cons, List.length_nil, List.length_take]
        omega

/-- C3 witness: the packet counts of the amended statement at the one-byte image. -/
theorem createBMPPackets_chunking_witness :
    (createBMPPackets [7]).length = (1 + 191) / 192
    ∧ (createBMPPacketsV2 [7]).length = (1 + 192) / 193 :=
  ⟨(createBMPPackets_chunking_amended [7] (by decide)).1.1,
   (createBMPPackets_chunking_amended [7] (by decide)).2.1⟩

set_option maxRecDepth 4000 in
/-- C3 counterexample: a 193-byte image yields a single packet in the v2 variant,
not the `ceil(193/192) = 2` packets the claim requires. -/
theorem createBMPPackets_chunk193_counterexample :
    (createBMPPacketsV2 (List.replicate 193 0)).length = 1
    ∧ ((193 + 191) / 192 : Nat) = 2 := by
  exact ⟨by decide, rfl⟩

/-! ## C4: CRC-32 -/

theorem crcSpecStep_eq_crcShiftStep (r : Nat) : crcSpecStep r = crcShiftStep r := by
  have hb : r.testBit 31 = decide (r / 2 ^ 31 % 2 = 1) := Nat.testBit_to_div_mod
  rw [crcSpecStep, crcShiftStep, hb]
  by_cases h : r / 2 ^ 31 % 2 = 1 <;> simp [h, Nat.mul_comm]

theorem crcBits_eq_iterate (j : Nat) : ∀ c, crcBits j c = crcShiftStep^[j] c := by
  induction j with
  | zero => intro c; rfl
  | succ n ih =>
    intro c
    rw [crcBits, ih, Function.iterate_succ_apply]

theorem crcUpdateByte_eq_spec (c b : Nat) :
    crcUpdateByte c b = crcSpecStep^[8] (c ^^^ (b % 256) * 2 ^ 24) := by
  have hstep : crcSpecStep = crcShiftStep := funext crcSpecStep_eq_crcShiftStep
  rw [crcUpdateByte, crcBits_eq_iterate, hstep]

theorem foldl_crcUpdateByte_eq_spec (data : List Nat) (init : Nat) :
    data.foldl crcUpdateByte init
      = data.foldl (fun r b => crcSpecStep^[8] (r ^^^ (b % 256) * 2 ^ 24)) init := by
  have : crcUpdateByte = fun r b => crcSpecStep^[8] (r ^^^ (b % 256) * 2 ^ 24) := by
    funext r b; exact crcUpdateByte_eq_spec r b
  rw [this]

/-- C4 (amended): the v2 variant's `calculateCRC32` computes exactly the
reference CRC-32 variant described by the claim; the glasses2.ts variant's
`calculateCRC32` instead feeds the 4-byte storage address through the register
before the input and byte-swaps the complemented register, so it equals
`byteSwap32` of the reference value of `storageAddress ++ data` (the final
conjunct pins down that `byteSwap32` is the big-endian byte swap). -/
theorem calculateCRC32_reference_amended (data : List Nat) :
    calculateCRC32 data = crcReferenceSpec data
    ∧ calculateCRC32G2 data = byteSwap32 (crcReferenceSpec (storageAddress ++ data))
    ∧ byteSwap32 0x12345678 = 0x78563412 := by
  refine ⟨?_, ?_, by decide⟩
  · rw [calculateCRC32, crcReferenceSpec, foldl_crcUpdateByte_eq_spec, Nat.xor_comm]
  · rw [calculateCRC32G2, byteSwap32, crcReferenceSpec, List.foldl_append,
      foldl_crcUpdateByte_eq_spec, foldl_crcUpdateByte_eq_spec, Nat.xor_comm]

set_option maxRecDepth 10000 in
/-- C4 counterexample: the glasses2.ts variant's `calculateCRC32` does not return
the reference value already on the empty input. -/
theorem calculateCRC32_g2_not_reference :
    calculateCRC32G2 [] ≠ crcReferenceSpec [] := by decide

/-! ## C5: end-of-transmission marker -/

/-- C5 evaluation: on a connected session, the glasses2.ts variant writes the
3-byte marker `[0x20, 0x0D, 0x0E]` to the left and right endpoints after the
last image packet and before the CRC_CHECK (`0x16`) frame; the v2 variant in
the same position writes a one-byte frame `[0x20]` (only
`BMP_TRANSMISSION_END[0]`), not the 3-byte marker. -/
theorem bmp_end_marker_behavior :
    (∃ cb, sendBMPImage connectedSession ⟨576, 136, [0]⟩
        = (true, [⟨Endpoint.left, [0x15, 0, 0x00, 0x1c, 0x00, 0x00, 0]⟩,
                  ⟨Endpoint.right, [0x15, 0, 0x00, 0x1c, 0x00, 0x00, 0]⟩,
                  ⟨Endpoint.left, [0x20, 0x0d, 0x0e]⟩, ⟨Endpoint.right, [0x20, 0x0d, 0x0e]⟩,
                  ⟨Endpoint.left, 0x16 :: cb⟩, ⟨Endpoint.right, 0x16 :: cb⟩]))
    ∧ (∃ cb, sendBMPImageV2 connectedSession ⟨488, 136, [0]⟩
        = (true, [⟨Endpoint.left, [0x15, 0, 0x00, 0x1c, 0x00, 0x00, 0]⟩,
                  ⟨Endpoint.right, [0x15, 0, 0x00, 0x1c, 0x00, 0x00, 0]⟩,
                  ⟨Endpoint.left, [0x20]⟩, ⟨Endpoint.right, [0x20]⟩,
                  ⟨Endpoint.left, 0x16 :: cb⟩, ⟨Endpoint.right, 0x16 :: cb⟩])) :=
  ⟨⟨uint32ToBytes (calculateCRC32G2 ([0x00, 0x1c, 0x00, 0x00] ++ convertTo1BitBMP [0])), rfl⟩,
   ⟨uint32ToBytes (calculateCRC32 [0]), rfl⟩⟩

/-! ## C6: sequence byte of text frames -/

theorem createTextPacket_seqByte (s : Session) (d : List Nat) (cp tp pg mp : Nat) :
    (createTextPacket s d cp tp pg mp).1.getD 1 0 = s.sequenceNumber % 256 := rfl

theorem iterTextSession_sequenceNumber (k : Nat) :
    ∀ s : Session, (iterTextSession s k).sequenceNumber = s.sequenceNumber + k := by
  induction k with
  | zero => intro s; rfl
  | succ n ih =>
    intro s
    rw [iterTextSession, ih]
    show s.sequenceNumber + 1 + n = s.sequenceNumber + (n + 1)
    omega

/-- C6: the sequence byte in a text-frame header is the session counter mod 256
(so it takes every value 0..255 and wraps to 0 after 255), the counter advances
by one per frame, and any two of the frames built back-to-back carry distinct
sequence bytes as long as they are fewer than 256 frames apart. -/
theorem textPacket_sequence_theorem (s : Session) (d : List Nat) (cp tp pg mp : Nat) :
    ((createTextPacket s d cp tp pg mp).1.getD 1 0 = s.sequenceNumber % 256
      ∧ (createTextPacket s d cp tp pg mp).2.sequenceNumber = s.sequenceNumber + 1)
    ∧ (∀ k, textSeqByte s k = (s.sequenceNumber + k) % 256)
    ∧ (∀ i j, i < j → j < i + 256 → textSeqByte s i ≠ textSeqByte s j) := by
  have hbyte : ∀ k, textSeqByte s k = (s.sequenceNumber + k) % 256 := by
    intro k
    rw [textSeqByte, createTextPacket_seqByte, iterTextSession_sequenceNumber]
  refine ⟨⟨createTextPacket_seqByte s d cp tp pg mp, rfl⟩, hbyte, fun i j h1 h2 => ?_⟩
  rw [hbyte, hbyte]
  omega

/-- C6 witness: two back-to-back frames carry distinct sequence bytes. -/
theorem textPacket_sequence_witness :
    textSeqByte connectedSession 0 ≠ textSeqByte connectedSession 1 :=
  (textPacket_sequence_theorem connectedSession [] 0 1 0 1).2.2 0 1 (by decide) (by decide)

/-! ## C7: line width bound -/

theorem splitOnSpace_no_space : ∀ (l : List Char), ∀ w ∈ splitOnSpace l, ' ' ∉ w := by
  intro l
  induction l with
  | nil =>
    intro w hw
    simp only [splitOnSpace, List.mem_singleton] at hw
    subst hw; simp
  | cons c rest ih =>
    intro w hw
    simp only [splitOnSpace] at hw
    by_cases hc : c = ' '
    · rw [if_pos hc] at hw
      rcases List.mem_cons.mp hw with rfl | h
      · simp
      · exact ih w h
    · rw [if_neg hc] at hw
      cases hr : splitOnSpace rest with
      | nil =>
        rw [hr] at hw
        simp only [List.mem_singleton] at hw
        subst hw
        intro hmem
        exact hc (List.mem_singleton.mp hmem).symm
      | cons w0 ws =>
        rw [hr] at hw
        rcases List.mem_cons.mp hw with rfl | h
        · intro hmem
          rcases List.mem_cons.mp hmem with hsp | hsp
          · exact hc hsp.symm
          · exact ih w0 (hr ▸ List.mem_cons_self w0 ws) hsp
        · exact ih w (hr ▸ List.mem_cons_of_mem w0 h)

theorem splitLinesLoop_inv :
    ∀ (words : List (List Char)) (cur : List Char) (lines : List (List Char)),
      (∀ w ∈ words, ' ' ∉ w) →
      (cur = [] ∨ cur.length * 126 ≤ 4880 ∨ ' ' ∉ cur) →
      (∀ l ∈ lines, l.length * 126 ≤ 4880 ∨ (' ' ∉ l ∧ ¬ l.length * 126 ≤ 4880)) →
      ∀ l ∈ splitLinesLoop words cur lines,
        l.length * 126 ≤ 4880 ∨ (' ' ∉ l ∧ ¬ l.length * 126 ≤ 4880) := by
  intro words
  induction words with
  | nil =>
    intro cur lines hw hcur hlines l hl
    simp only [splitLinesLoop] at hl
    by_cases hce : cur.isEmpty
    · rw [if_pos hce] at hl
      exact hlines l hl
    · rw [if_neg hce] at hl
      rcases List.mem_append.mp hl with h | h
      · exact hlines l h
      · rw [List.mem_singleton] at h
        subst h
        rcases hcur with h0 | hok | hns
        · exact absurd (h0 ▸ rfl) hce
        · exact Or.inl hok
        · by_cases hok : l.length * 126 ≤ 4880
          · exact Or.inl hok
          · exact Or.inr ⟨hns, hok⟩
  | cons word rest ih =>
    intro cur lines hw hcur hlines l hl
    have hw0 : ' ' ∉ word := hw word (List.mem_cons_self word rest)
    have hwrest : ∀ w ∈ rest, ' ' ∉ w := fun w h => hw w (List.mem_cons_of_mem word h)
    simp only [splitLinesLoop] at hl
    by_cases hce : cur.isEmpty
    · have hcnil : cur = [] := List.isEmpty_iff.mp hce
    -- testLine = word
      rw [if_pos hce] at hl
      by_cases hfit : word.length * 126 ≤ 4880
      · rw [if_pos hfit] at hl
        exact ih word lines hwrest (Or.inr (Or.inl hfit)) hlines l hl
      · rw [if_neg hfit, hce] at hl
        simp only [Bool.not_true, Bool.false_eq_true, if_false] at hl
        refine ih cur (lines ++ [word]) hwrest hcur ?_ l hl
        intro l' hl'
        rcases List.mem_append.mp hl' with h | h
        · exact hlines l' h
        · rw [List.mem_singleton] at h
          subst h
          exact Or.inr ⟨hw0, hfit⟩
    · have hcne : ¬ cur = [] := fun h => hce (h ▸ rfl)
      rw [if_neg hce] at hl
      by_cases hfit : (cur ++ ' ' :: word).length * 126 ≤ 4880
      · rw [if_pos hfit] at hl
        exact ih (cur ++ ' ' :: word) lines hwrest (Or.inr (Or.inl hfit)) hlines l hl
      · rw [if_neg hfit] at hl
        simp only [Bool.not_eq_true', Bool.not_eq_false] at hl
        rw [if_pos (by simpa using hce)] at hl
        refine ih word (lines ++ [cur]) hwrest (Or.inr (Or.inr hw0)) ?_ l hl
        intro l' hl'
        rcases List.mem_append.mp hl' with h | h
        · exact hlines l' h
        · rw [List.mem_singleton] at h
          subst h
          rcases hcur with h0 | hok | hns
          · exact absurd h0 hcne
          · exact Or.inl hok
          · by_cases hok : l'.length * 126 ≤ 4880
            · exact Or.inl hok
            · exact Or.inr ⟨hns, hok⟩

/-- C7: every line produced by `splitTextIntoLines` either fits the width bound
`488 / (21 * 0.6)` (that is, has at most 38 characters, `len * 126 ≤ 4880`) or
is a single word (no space) that alone exceeds the bound. -/
theorem splitTextIntoLines_theorem (text : List Char) (_hne : text ≠ []) :
    ∀ line ∈ splitTextIntoLines text,
      line.length * 126 ≤ 4880 ∨ (' ' ∉ line ∧ ¬ line.length * 126 ≤ 4880) := by
  intro line hl
  exact splitLinesLoop_inv (splitOnSpace text) [] []
    (fun w hw => splitOnSpace_no_space text w hw) (Or.inl rfl) (by simp) line hl

/-- C7 witness: the theorem applied to a concrete text and concrete line. -/
theorem splitTextIntoLines_witness :
    (['h', 'i'] : List Char).length * 126 ≤ 4880
    ∨ (' ' ∉ (['h', 'i'] : List Char) ∧ ¬ (['h', 'i'] : List Char).length * 126 ≤ 4880) :=
  splitTextIntoLines_theorem ['h', 'i'] (by decide) ['h', 'i'] (by decide)

/-! ## C8: screen grouping -/

theorem splitIntoScreensLoop_length {α : Type} (lines : List α) :
    ∀ (fuel i : Nat), lines.length ≤ i + fuel * 5 →
      (splitIntoScreensLoop lines fuel i).length = (lines.length - i + 4) / 5 := by
  intro fuel
  induction fuel with
  | zero => intro i h; simp only [splitIntoScreensLoop, List.length_nil]; omega
  | succ n ih =>
    intro i h
    simp only [splitIntoScreensLoop]
    split
    · next hlt => rw [List.length_cons, ih (i + 5) (by omega)]; omega
    · next hlt => simp only [List.length_nil]; omega

theorem splitIntoScreensLoop_mem {α : Type} (lines : List α) :
    ∀ (fuel i : Nat), ∀ g ∈ splitIntoScreensLoop lines fuel i, g.length ≤ 5 := by
  intro fuel
  induction fuel with
  | zero => intro i g hg; simp [splitIntoScreensLoop] at hg
  | succ n ih =>
    intro i g hg
    simp only [splitIntoScreensLoop] at hg
    split at hg
    · rcases List.mem_cons.mp hg with rfl | h
      · simp only [List.length_take]; omega
      · exact ih (i + 5) g h
    · simp at hg

theorem splitIntoScreensLoop_flatten {α : Type} (lines : List α) :
    ∀ (fuel i : Nat), lines.length ≤ i + fuel * 5 →
      (splitIntoScreensLoop lines fuel i).flatten = lines.drop i := by
  intro fuel
  induction fuel with
  | zero =>
    intro i h
    simp only [splitIntoScreensLoop, List.flatten_nil]
    exact (List.drop_eq_nil_of_le (by omega)).symm
  | succ n ih =>
    intro i h
    simp only [splitIntoScreensLoop]
    split
    · next hlt =>
      rw [List.flatten_cons, ih (i + 5) (by omega)]
      have hdd : lines.drop (i + 5) = (lines.drop i).drop 5 := by
        rw [List.drop_drop]
      rw [hdd, List.take_append_drop]
    · next hlt =>
      simp only [List.flatten_nil]
      exact (List.drop_eq_nil_of_le (by omega)).symm

/-- C8: `splitIntoScreens` yields exactly `ceil(len/5)` groups, each of length at
most 5, and flattening the groups in order recovers the original list. -/
theorem splitIntoScreens_theorem {α : Type} (lines : List α) :
    (splitIntoScreens lines).length = (lines.length + 4) / 5
    ∧ (∀ g ∈ splitIntoScreens lines, g.length ≤ 5)
    ∧ (splitIntoScreens lines).flatten = lines := by
  refine ⟨?_, fun g hg => splitIntoScreensLoop_mem lines lines.length 0 g hg, ?_⟩
  · have := splitIntoScreensLoop_length lines lines.length 0 (by omega)
    rw [splitIntoScreens, this]
    omega
  · have := splitIntoScreensLoop_flatten lines lines.length 0 (by omega)
    rw [splitIntoScreens, this, List.drop_zero]

/-- C8 witness: the theorem applied to a concrete 7-line list. -/
theorem splitIntoScreens_witness :
    (splitIntoScreens (List.replicate 7 (['x'] : List Char))).length = (7 + 4) / 5
    ∧ ((List.replicate 7 (['x'] : List Char)).take 5).length ≤ 5
    ∧ (splitIntoScreens (List.replicate 7 (['x'] : List Char))).flatten
        = List.replicate 7 ['x'] :=
  ⟨(splitIntoScreens_theorem (List.replicate 7 ['x'])).1,
   (splitIntoScreens_theorem (List.replicate 7 ['x'])).2.1 ((List.replicate 7 ['x']).take 5)
     (by decide),
   (splitIntoScreens_theorem (List.replicate 7 ['x'])).2.2⟩

/-! ## C9: battery decoding -/

/-- C9 (amended): a GET_BATTERY notification of at least 4 bytes decodes to
`percentage = byte 3` and `isCharging = (byte 2 & 1) ≠ 0`, tagged with the
endpoint that produced it; the voltage field, however, is present whenever the
payload is longer than 4 bytes — already with 5 bytes, where the missing byte 5
is read as 0 — not only when both voltage bytes (4 and 5) are present. -/
theorem handleBatteryUpdate_amended (bytes : List Nat) (isLeft : Bool)
    (h : 4 ≤ bytes.length) :
    ∃ info : BatteryInfo,
      handleBatteryUpdate bytes isLeft = some (info, isLeft)
      ∧ info.percentage = bytes.getD 3 0
      ∧ (info.isCharging = true ↔ bytes.getD 2 0 % 2 = 1)
      ∧ (info.voltage ≠ none ↔ 4 < bytes.length) := by
  rw [handleBatteryUpdate, if_neg (by omega)]
  refine ⟨_, rfl, rfl, ?_, ?_⟩
  · simp only [bne_iff_ne, ne_eq, Nat.and_one_is_mod]
    omega
  · by_cases h4 : 4 < bytes.length <;> simp [h4]

/-- C9 witness: the scenario bytes `[0x2C, 0x00, 0x01, 85]` decode to
percentage 85, charging true, no voltage, tagged left. -/
theorem handleBatteryUpdate_witness :
    ∃ info : BatteryInfo,
      handleBatteryUpdate [0x2C, 0x00, 0x01, 85] true = some (info, true)
      ∧ info.percentage = ([0x2C, 0x00, 0x01, 85] : List Nat).getD 3 0
      ∧ (info.isCharging = true ↔ ([0x2C, 0x00, 0x01, 85] : List Nat).getD 2 0 % 2 = 1)
      ∧ (info.voltage ≠ none ↔ 4 < ([0x2C, 0x00, 0x01, 85] : List Nat).length) :=
  handleBatteryUpdate_amended [0x2C, 0x00, 0x01, 85] true (by decide)

/-- C9 counterexample: a 5-byte payload is not long enough to contain both
voltage bytes (that would need 6), yet the decoder reports a voltage
(`bytes[4] << 8 | undefined` coerces the missing byte to 0, giving 512). -/
theorem handleBatteryUpdate_voltage_counterexample :
    handleBatteryUpdate [0x2C, 0x00, 0x01, 85, 0x02] true
      = some ({ percentage := 85, isCharging := true, voltage := some 512 }, true)
    ∧ ([0x2C, 0x00, 0x01, 85, 0x02] : List Nat).length < 6 :=
  ⟨rfl, by decide⟩

/-! ## C10: touchpad events fire clearScreen -/

/-- C10: handling an inbound DEVICE_EVENTS notification with sub-code `0x17` or
`0x18` (left touchpad pressed/held/released) on a session with both TX
characteristics available does not merely update state: it sets
`isGlassesWorn` and, as a side effect of inbound processing, writes the
outbound CLEAR_SCREEN (`0x18`) command to both endpoints. -/
theorem deviceEvent_touchpad_clearScreen_theorem (s : Session) (t : Nat) (rest : List Nat)
    (ht : t = 0x17 ∨ t = 0x18) (hl : s.leftTx = true) (hr : s.rightTx = true) :
    (handleDeviceEvent s (CMD_DEVICE_EVENTS :: t :: rest)).1.isGlassesWorn = true
    ∧ (handleDeviceEvent s (CMD_DEVICE_EVENTS :: t :: rest)).2
        = [⟨Endpoint.left, [CMD_CLEAR_SCREEN]⟩, ⟨Endpoint.right, [CMD_CLEAR_SCREEN]⟩] := by
  rcases ht with rfl | rfl <;>
    simp [handleDeviceEvent, mapTypeToCommand, clearScreen, sendCommand, hl, hr] <;>
    rw [if_neg (by omega)] <;>
    exact ⟨rfl, rfl⟩

/-- C10 witness: the concrete event `[0xF5, 0x17]` on a connected session. -/
theorem deviceEvent_touchpad_clearScreen_witness :
    (handleDeviceEvent connectedSession [0xF5, 0x17]).1.isGlassesWorn = true
    ∧ (handleDeviceEvent connectedSession [0xF5, 0x17]).2
        = [⟨Endpoint.left, [CMD_CLEAR_SCREEN]⟩, ⟨Endpoint.right, [CMD_CLEAR_SCREEN]⟩] :=
  deviceEvent_touchpad_clearScreen_theorem connectedSession 0x17 [] (Or.inl rfl) rfl rfl
